import Mathlib

/-!
Shallow embedding of `src/bootstrap_python_env.py`, a single-file tool that
provisions a Python automation environment: platform detection, interpreter
location/installation, virtual-environment creation, tooling upgrade and
package installation.

Side-effecting steps (prints, downloads, directory creation, subprocess
execution, chmod) are modelled as explicit effect traces; the ambient
filesystem, PATH lookup, `subprocess` return codes and path resolution are
modelled as oracle functions passed in as parameters.  Fallible functions
return `Except String` carrying the raised error message, or a
`List Effect × Option String` pair (trace, optional raised error).
-/

/-- One observable side effect of the script. -/
inductive Effect where
  | print (s : String)
  | download (url destination : String)
  | mkdir (path : String)
  | exec (command : List String)
  | chmod (path : String)
  deriving DecidableEq, Repr

/-- An effect is mutating unless it is a mere log line: downloads touch the
network, `mkdir` touches the filesystem, `exec` runs a subprocess, `chmod`
changes permissions. -/
def Effect.isMutating : Effect → Bool
  | .print _ => false
  | .download _ _ => true
  | .mkdir _ => true
  | .exec _ => true
  | .chmod _ => true

/-- `charsPre needle hay`: the char list `needle` is a prefix of `hay`. -/
def charsPre : List Char → List Char → Bool
  | [], _ => true
  | _ :: _, [] => false
  | a :: as, b :: bs => a == b && charsPre as bs

/-- `strContainsAux needle hay`: `needle` occurs as a contiguous sublist of
`hay` (the meaning of Python's `needle in hay` on strings). -/
def strContainsAux (needle : List Char) : List Char → Bool
  | [] => needle.isEmpty
  | c :: rest => charsPre needle (c :: rest) || strContainsAux needle rest

/-- Python's substring test `needle in hay`. -/
def strContains (hay needle : String) : Bool :=
  strContainsAux needle.data hay.data

/-- Python's `str.lower()`, modelled char-wise (ASCII case folding). -/
def pyLower (s : String) : String :=
  String.mk (s.data.map Char.toLower)

/-- `MINIFORGE_BASE_URL` from the source. -/
def MINIFORGE_BASE_URL : String :=
  "https://github.com/conda-forge/miniforge/releases/latest/download"

/-- `BASE_LIBRARIES` from the source: the fixed base package list. -/
def BASE_LIBRARIES : List String :=
  [ "requests", "urllib3", "python-dotenv", "pydantic", "pandas", "numpy",
    "pyyaml", "schedule", "rich", "loguru", "click", "boto3", "paramiko",
    "beautifulsoup4", "lxml", "selenium", "openpyxl", "psutil" ]

/-- `WINDOWS_ONLY` from the source. -/
def WINDOWS_ONLY : List String := ["pywin32"]

/-- `UNIX_ONLY` from the source. -/
def UNIX_ONLY : List String := []

/-- `determine_platform` from the source: lowercase the reported OS name,
test for the substring `windows`, then `darwin` (mapped to `mac`), defaulting
to `linux`. -/
def determine_platform (system_name : String) : String :=
  let s := pyLower system_name
  if strContains s "windows" then "windows"
  else if strContains s "darwin" then "mac"
  else "linux"

/-- `run_command` from the source, with the subprocess return code supplied
by the oracle `ret`.  Returns the effect trace and the raised error, if any:
print the command line; in dry-run mode stop there; otherwise execute, and
raise `Command failed (code): cmd` when the return code is non-zero. -/
def run_command (ret : List String → Int) (command : List String)
    (dry_run : Bool) : List Effect × Option String :=
  let cmd_str := String.intercalate " " command
  let pr := Effect.print ("\n$ " ++ cmd_str)
  if dry_run then ([pr], none)
  else
    let code := ret command
    if code ≠ 0 then
      ([pr, Effect.exec command],
        some ("Command failed (" ++ toString code ++ "): " ++ cmd_str))
    else ([pr, Effect.exec command], none)

/-- `probe_candidates` embeds the candidate loop of `detect_existing_python`:
skip falsy (empty) candidates, accept a candidate whose path exists, else try
`shutil.which` (oracle `whichRes`), else move on; `none` when exhausted. -/
def probe_candidates (fsExists : String → Bool) (whichRes : String → Option String) :
    List String → Option String
  | [] => none
  | c :: rest =>
    if c = "" then probe_candidates fsExists whichRes rest
    else if fsExists c then some c
    else
      match whichRes c with
      | some r => some r
      | none => probe_candidates fsExists whichRes rest

/-- `detect_existing_python` from the source: probe the optional explicit
candidate, then `sys.executable` (`sysExec`), then `python3`, `python`, `py`. -/
def detect_existing_python (fsExists : String → Bool)
    (whichRes : String → Option String) (sysExec : String)
    (explicit : Option String) : Option String :=
  probe_candidates fsExists whichRes
    (explicit.toList ++ [sysExec, "python3", "python", "py"])

/-- The base-plus-platform package list that `gather_packages` starts from:
`BASE_LIBRARIES` extended by `WINDOWS_ONLY` or `UNIX_ONLY`. -/
def basePackages (current_platform : String) : List String :=
  BASE_LIBRARIES ++ (if current_platform = "windows" then WINDOWS_ONLY else UNIX_ONLY)

/-- One iteration of the extras loop of `gather_packages`:
`if pkg and pkg not in packages: packages.append(pkg)`. -/
def addPkg (pkgs : List String) (pkg : String) : List String :=
  if pkg ≠ "" ∧ pkg ∉ pkgs then pkgs ++ [pkg] else pkgs

/-- `gather_packages` from the source: base list, platform-conditional list,
then the extras loop. -/
def gather_packages (current_platform : String) (extras : List String) : List String :=
  extras.foldl addPkg (basePackages current_platform)

/-- The error message of the `raise RuntimeError` in `build_miniforge_filename`. -/
def unsupportedMsg (machine current_platform : String) : String :=
  "Unsupported architecture '" ++ machine ++ "' for platform '" ++ current_platform ++ "'."

/-- `build_miniforge_filename` from the source: lowercase the machine string,
pick the literal filename for the six supported platform x architecture
combinations, and raise the unsupported-architecture error otherwise. -/
def build_miniforge_filename (current_platform machine : String) : Except String String :=
  let arch := pyLower machine
  if current_platform = "windows" then
    if arch = "x86_64" ∨ arch = "amd64" then Except.ok "Miniforge3-Windows-x86_64.exe"
    else if arch = "arm64" ∨ arch = "aarch64" then Except.ok "Miniforge3-Windows-arm64.exe"
    else Except.error (unsupportedMsg machine current_platform)
  else if current_platform = "mac" then
    if arch = "x86_64" ∨ arch = "amd64" then Except.ok "Miniforge3-MacOSX-x86_64.sh"
    else if arch = "arm64" ∨ arch = "aarch64" then Except.ok "Miniforge3-MacOSX-arm64.sh"
    else Except.error (unsupportedMsg machine current_platform)
  else
    if arch = "x86_64" ∨ arch = "amd64" then Except.ok "Miniforge3-Linux-x86_64.sh"
    else if arch = "arm64" ∨ arch = "aarch64" then Except.ok "Miniforge3-Linux-aarch64.sh"
    else Except.error (unsupportedMsg machine current_platform)

/-- `download_file` from the source: print the plan, and unless in dry-run
mode create the destination's parent directory (`parentOf` models
`destination.parent`) and fetch the URL. -/
def download_file (parentOf : String → String) (url destination : String)
    (dry_run : Bool) : List Effect :=
  let pr := Effect.print ("Downloading " ++ url ++ " -> " ++ destination)
  if dry_run then [pr]
  else [pr, Effect.mkdir (parentOf destination), Effect.download url destination]

/-- `install_miniforge` from the source: compute the installer filename (the
unsupported-architecture error is raised before anything else happens), enter
the `tempfile.TemporaryDirectory` block — which creates the scoped temporary
directory `tmpdir` on entry, in dry-run mode too (its removal at block exit
is not modelled) — download the installer into it, stop in dry-run mode, and
otherwise run the platform-specific silent installer command (after
`chmod +x` on Unix-like systems). -/
def install_miniforge (parentOf : String → String) (ret : List String → Int)
    (machine tmpdir runtime_dir current_platform : String)
    (dry_run : Bool) : List Effect × Option String :=
  match build_miniforge_filename current_platform machine with
  | Except.error e => ([], some e)
  | Except.ok filename =>
    let url := MINIFORGE_BASE_URL ++ "/" ++ filename
    let tmp := Effect.mkdir tmpdir
    let installer_path := tmpdir ++ "/" ++ filename
    let dl := download_file parentOf url installer_path dry_run
    if dry_run then (tmp :: dl, none)
    else if current_platform = "windows" then
      let args := [installer_path, "/InstallationType=JustMe", "/AddToPath=0",
                   "/S", "/D=" ++ runtime_dir]
      let rc := run_command ret args false
      (tmp :: (dl ++ rc.1), rc.2)
    else
      let args := ["bash", installer_path, "-b", "-p", runtime_dir]
      let rc := run_command ret args false
      (tmp :: (dl ++ Effect.chmod installer_path :: rc.1), rc.2)

/-- The portable-runtime interpreter path of `ensure_python_runtime`:
`runtime_dir / "python.exe"` on Windows, `runtime_dir / "bin/python"` otherwise. -/
def runtimePython (runtime_dir current_platform : String) : String :=
  runtime_dir ++ (if current_platform = "windows" then "/python.exe" else "/bin/python")

/-- The auto-detect tail of `ensure_python_runtime` (no explicit interpreter):
return a detected system interpreter, else reuse an existing portable runtime,
else install one (`installOutcome` is the outcome of `install_miniforge`:
`none` on success).  The returned flag records whether a fresh install ran. -/
def ensurePythonAuto (fsExists : String → Bool) (whichRes : String → Option String)
    (sysExec runtime_dir current_platform : String)
    (installOutcome : Option String) : Except String (String × Bool) :=
  match detect_existing_python fsExists whichRes sysExec none with
  | some existing => Except.ok (existing, false)
  | none =>
    let runtime_python := runtimePython runtime_dir current_platform
    if fsExists runtime_python then Except.ok (runtime_python, false)
    else
      match installOutcome with
      | none => Except.ok (runtime_python, true)
      | some e => Except.error e

/-- `ensure_python_runtime` from the source.  A truthy (non-empty) explicit
interpreter is resolved (`resolve` models `expanduser().resolve()`) and
accepted when in dry-run mode or existing, else the not-found error is raised;
otherwise the auto-detect chain runs. -/
def ensure_python_runtime (resolve : String → String) (fsExists : String → Bool)
    (whichRes : String → Option String) (sysExec : String)
    (explicit_python : Option String) (runtime_dir current_platform : String)
    (dry_run : Bool) (installOutcome : Option String) : Except String (String × Bool) :=
  match explicit_python with
  | some ep =>
    if ep = "" then
      ensurePythonAuto fsExists whichRes sysExec runtime_dir current_platform installOutcome
    else
      let path := resolve ep
      if dry_run || fsExists path then Except.ok (path, false)
      else Except.error ("Specified python interpreter not found: " ++ path)
  | none =>
    ensurePythonAuto fsExists whichRes sysExec runtime_dir current_platform installOutcome

/-- The in-environment interpreter path of `ensure_venv`: under `Scripts`
with an `.exe` suffix when `os.name == "nt"`, under `bin` otherwise. -/
def envPython (os_is_nt : Bool) (env_dir : String) : String :=
  env_dir ++ "/" ++ (if os_is_nt then "Scripts" else "bin") ++ "/" ++
    (if os_is_nt then "python.exe" else "python")

/-- The tail of `ensure_venv`: unless in dry-run mode, the in-environment
interpreter must exist or the cannot-locate error is raised. -/
def ensureVenvCheck (fsExists : String → Bool) (os_is_nt : Bool)
    (env_dir : String) (dry_run : Bool) (tr : List Effect) :
    List Effect × Except String String :=
  let env_python := envPython os_is_nt env_dir
  if dry_run = false ∧ fsExists env_python = false then
    (tr, Except.error ("Cannot locate interpreter inside venv: " ++ env_python))
  else (tr, Except.ok env_python)

/-- `ensure_venv` from the source: create the environment with
`python -m venv` when the directory is missing (a command failure
propagates), reuse it otherwise, then run the interpreter post-condition
check. -/
def ensure_venv (ret : List String → Int) (fsExists : String → Bool)
    (os_is_nt : Bool) (env_dir python_bin : String) (dry_run : Bool) :
    List Effect × Except String String :=
  if fsExists env_dir then
    ensureVenvCheck fsExists os_is_nt env_dir dry_run
      [Effect.print ("Using existing virtual environment at " ++ env_dir ++ ".")]
  else
    let rc := run_command ret [python_bin, "-m", "venv", env_dir] dry_run
    let tr := Effect.print ("Creating virtual environment at " ++ env_dir ++ "...") :: rc.1
    match rc.2 with
    | some e => (tr, Except.error e)
    | none => ensureVenvCheck fsExists os_is_nt env_dir dry_run tr

/-- `upgrade_tooling` from the source: unconditionally upgrade `pip`,
`setuptools` and `wheel` in the environment. -/
def upgrade_tooling (ret : List String → Int) (env_python : String)
    (dry_run : Bool) : List Effect × Option String :=
  let rc := run_command ret
    [env_python, "-m", "pip", "install", "--upgrade", "pip", "setuptools", "wheel"] dry_run
  (Effect.print "Upgrading pip, setuptools, and wheel..." :: rc.1, rc.2)

/-- `install_packages` from the source: log and no-op on an empty list, else
one batched `pip install --upgrade` over the whole list. -/
def install_packages (ret : List String → Int) (env_python : String)
    (packages : List String) (dry_run : Bool) : List Effect × Option String :=
  if packages.isEmpty then ([Effect.print "No packages requested."], none)
  else
    let rc := run_command ret
      ([env_python, "-m", "pip", "install", "--upgrade"] ++ packages) dry_run
    (Effect.print ("Installing " ++ toString packages.length ++ " packages...") :: rc.1, rc.2)

/-- Specification-side description of the extras loop's output order: keep
the first occurrence of each non-empty string not already seen, in order. -/
def firstSeenFilter (seen : List String) : List String → List String
  | [] => []
  | x :: xs =>
    if x ≠ "" ∧ x ∉ seen then x :: firstSeenFilter (x :: seen) xs
    else firstSeenFilter seen xs

theorem mem_addPkg (pkgs : List String) (pkg x : String) :
    x ∈ addPkg pkgs pkg ↔ x ∈ pkgs ∨ (pkg ≠ "" ∧ pkg ∉ pkgs ∧ x = pkg) := by
  by_cases h : pkg ≠ "" ∧ pkg ∉ pkgs
  · unfold addPkg
    rw [if_pos h]
    simp only [List.mem_append, List.mem_singleton]
    constructor
    · rintro (hx | rfl)
      · exact Or.inl hx
      · exact Or.inr ⟨h.1, h.2, rfl⟩
    · rintro (hx | ⟨_, _, rfl⟩)
      · exact Or.inl hx
      · exact Or.inr rfl
  · unfold addPkg
    rw [if_neg h]
    constructor
    · exact Or.inl
    · rintro (hx | ⟨h1, h2, rfl⟩)
      · exact hx
      · exact absurd ⟨h1, h2⟩ h

theorem mem_foldl_addPkg (extras : List String) :
    ∀ (acc : List String) (x : String),
      x ∈ extras.foldl addPkg acc ↔ x ∈ acc ∨ (x ≠ "" ∧ x ∈ extras) := by
  induction extras with
  | nil => intro acc x; simp
  | cons e rest ih =>
    intro acc x
    rw [List.foldl_cons, ih, mem_addPkg]
    simp only [List.mem_cons]
    constructor
    · rintro ((h | ⟨he, _, rfl⟩) | ⟨hx, hr⟩)
      · exact Or.inl h
      · exact Or.inr ⟨he, Or.inl rfl⟩
      · exact Or.inr ⟨hx, Or.inr hr⟩
    · rintro (h | ⟨hx, (rfl | hr)⟩)
      · exact Or.inl (Or.inl h)
      · by_cases hea : x ∈ acc
        · exact Or.inl (Or.inl hea)
        · exact Or.inl (Or.inr ⟨hx, hea, rfl⟩)
      · exact Or.inr ⟨hx, hr⟩

theorem nodup_addPkg (pkgs : List String) (pkg : String) (h : pkgs.Nodup) :
    (addPkg pkgs pkg).Nodup := by
  by_cases hc : pkg ≠ "" ∧ pkg ∉ pkgs
  · unfold addPkg
    rw [if_pos hc, List.nodup_append]
    refine ⟨h, List.nodup_singleton _, ?_⟩
    intro a ha hb
    rw [List.mem_singleton] at hb
    subst hb
    exact hc.2 ha
  · unfold addPkg
    rw [if_neg hc]
    exact h

theorem nodup_foldl_addPkg (extras : List String) :
    ∀ acc : List String, acc.Nodup → (extras.foldl addPkg acc).Nodup := by
  induction extras with
  | nil => intro acc h; simpa using h
  | cons e rest ih =>
    intro acc h
    rw [List.foldl_cons]
    exact ih _ (nodup_addPkg _ _ h)

theorem firstSeenFilter_congr (l : List String) :
    ∀ s t : List String, (∀ y, y ∈ s ↔ y ∈ t) →
      firstSeenFilter s l = firstSeenFilter t l := by
  induction l with
  | nil => intro s t _; rfl
  | cons x xs ih =>
    intro s t hst
    by_cases hx : x ≠ "" ∧ x ∉ s
    · have hx' : x ≠ "" ∧ x ∉ t := ⟨hx.1, fun hm => hx.2 ((hst x).mpr hm)⟩
      simp only [firstSeenFilter]
      rw [if_pos hx, if_pos hx', ih (x :: s) (x :: t) (by intro y; simp [hst y])]
    · have hx' : ¬(x ≠ "" ∧ x ∉ t) := by
        rintro ⟨h1, h2⟩
        exact hx ⟨h1, fun hm => h2 ((hst x).mp hm)⟩
      simp only [firstSeenFilter]
      rw [if_neg hx, if_neg hx']
      exact ih s t hst

theorem foldl_addPkg_eq_append (extras : List String) :
    ∀ acc : List String, extras.foldl addPkg acc = acc ++ firstSeenFilter acc extras := by
  induction extras with
  | nil => intro acc; simp [firstSeenFilter]
  | cons e rest ih =>
    intro acc
    rw [List.foldl_cons]
    by_cases hc : e ≠ "" ∧ e ∉ acc
    · have ha : addPkg acc e = acc ++ [e] := by unfold addPkg; rw [if_pos hc]
      rw [ha, ih]
      have hcong : firstSeenFilter (acc ++ [e]) rest = firstSeenFilter (e :: acc) rest :=
        firstSeenFilter_congr rest _ _ (by intro y; simp [or_comm])
      rw [hcong]
      simp only [firstSeenFilter]
      rw [if_pos hc, List.append_assoc, List.singleton_append]
    · have ha : addPkg acc e = acc := by unfold addPkg; rw [if_neg hc]
      rw [ha, ih]
      simp only [firstSeenFilter]
      rw [if_neg hc]

theorem pywin32_mem_basePackages (p : String) :
    "pywin32" ∈ basePackages p ↔ p = "windows" := by
  by_cases hw : p = "windows"
  · subst hw
    decide
  · rw [basePackages, if_neg hw]
    exact iff_of_false (by decide) hw
/-- C1 counterexample: on platform `linux` with extras `["", "pywin32"]`, the
empty string is a distinct extra that duplicates nothing already in the list,
yet it does not appear in the result (so not every distinct extra appears
exactly once), and `pywin32` appears even though the platform is not
`windows`. -/
theorem gather_packages_claim_false :
    ("linux" : String) ≠ "windows"
    ∧ "" ∉ basePackages "linux"
    ∧ (gather_packages "linux" ["", "pywin32"]).count "" = 0
    ∧ (gather_packages "linux" ["", "pywin32"]).count "pywin32" = 1 := by
  decide

/-- C1 (amended): for each of the three platform tags and any extras list,
`gather_packages` returns the base-plus-platform list followed by the extras
restricted to first occurrences of non-empty strings not already present; the
result has no duplicates, its members are exactly the base-plus-platform
entries together with the non-empty extras, it counts `pywin32` exactly once
precisely when the platform is `windows` or `pywin32` occurs among the
extras (and zero times otherwise), and it counts every base library and every
non-empty extra exactly once. -/
theorem gather_packages_correct (p : String)
    (hp : p = "windows" ∨ p = "mac" ∨ p = "linux") (extras : List String) :
    gather_packages p extras = basePackages p ++ firstSeenFilter (basePackages p) extras
    ∧ (gather_packages p extras).Nodup
    ∧ (∀ x, x ∈ gather_packages p extras ↔ x ∈ basePackages p ∨ (x ≠ "" ∧ x ∈ extras))
    ∧ (gather_packages p extras).count "pywin32" =
        (if p = "windows" ∨ "pywin32" ∈ extras then 1 else 0)
    ∧ (∀ b ∈ BASE_LIBRARIES, (gather_packages p extras).count b = 1)
    ∧ (∀ e ∈ extras, e ≠ "" → (gather_packages p extras).count e = 1) := by
  have hbase : (basePackages p).Nodup := by
    rcases hp with rfl | rfl | rfl <;> decide
  have hnd : (gather_packages p extras).Nodup := nodup_foldl_addPkg extras _ hbase
  have hmem : ∀ x, x ∈ gather_packages p extras ↔
      x ∈ basePackages p ∨ (x ≠ "" ∧ x ∈ extras) :=
    fun x => mem_foldl_addPkg extras (basePackages p) x
  refine ⟨foldl_addPkg_eq_append extras _, hnd, hmem, ?_, ?_, ?_⟩
  · by_cases hcond : p = "windows" ∨ "pywin32" ∈ extras
    · rw [if_pos hcond]
      refine List.count_eq_one_of_mem hnd ?_
      rw [hmem]
      rcases hcond with h | h
      · exact Or.inl ((pywin32_mem_basePackages p).mpr h)
      · exact Or.inr ⟨by decide, h⟩
    · rw [if_neg hcond]
      push_neg at hcond
      refine List.count_eq_zero_of_not_mem ?_
      rw [hmem]
      rintro (h | ⟨_, h⟩)
      · exact hcond.1 ((pywin32_mem_basePackages p).mp h)
      · exact hcond.2 h
  · intro b hb
    refine List.count_eq_one_of_mem hnd ?_
    rw [hmem]
    refine Or.inl ?_
    rw [basePackages]
    exact List.mem_append_left _ hb
  · intro e he hne
    refine List.count_eq_one_of_mem hnd ?_
    rw [hmem]
    exact Or.inr ⟨hne, he⟩

/-- C1 witness: the amended theorem applied at platform `windows` and extras
`["foo", "requests"]`. -/
theorem gather_packages_correct_witness :
    gather_packages "windows" ["foo", "requests"] =
      basePackages "windows" ++ firstSeenFilter (basePackages "windows") ["foo", "requests"]
    ∧ (gather_packages "windows" ["foo", "requests"]).count "pywin32" =
        (if ("windows" : String) = "windows" ∨
            "pywin32" ∈ (["foo", "requests"] : List String) then 1 else 0) :=
  ⟨(gather_packages_correct "windows" (Or.inl rfl) ["foo", "requests"]).1,
   (gather_packages_correct "windows" (Or.inl rfl) ["foo", "requests"]).2.2.2.1⟩

/-- C10: `gather_packages` never returns a list containing the empty string,
for any platform string and any extras list — an empty-string extra is
silently dropped by the `if pkg` truthiness test. -/
theorem gather_packages_no_empty (p : String) (extras : List String) :
    (gather_packages p extras).count "" = 0 := by
  refine List.count_eq_zero_of_not_mem ?_
  intro h
  rcases (mem_foldl_addPkg extras (basePackages p) "").mp h with h | ⟨hne, _⟩
  · rw [basePackages] at h
    rcases List.mem_append.mp h with h | h
    · exact absurd h (by decide)
    · by_cases hw : p = "windows"
      · rw [if_pos hw] at h
        exact absurd h (by decide)
      · rw [if_neg hw] at h
        exact absurd h (by decide)
  · exact hne rfl

/-- C3: `determine_platform` returns `windows` whenever the lowercased OS
identifier contains `windows`, else `mac` whenever it contains `darwin`, and
`linux` otherwise; it always returns one of the three tags (no error path). -/
theorem determine_platform_spec (s : String) :
    (strContains (pyLower s) "windows" = true → determine_platform s = "windows")
    ∧ (strContains (pyLower s) "windows" = false →
        strContains (pyLower s) "darwin" = true → determine_platform s = "mac")
    ∧ (strContains (pyLower s) "windows" = false →
        strContains (pyLower s) "darwin" = false → determine_platform s = "linux")
    ∧ (determine_platform s = "windows" ∨ determine_platform s = "mac"
        ∨ determine_platform s = "linux") := by
  cases hw : strContains (pyLower s) "windows" <;>
    cases hd : strContains (pyLower s) "darwin" <;>
      simp [determine_platform, hw, hd]

/-- C3 witness: the theorem applied at the OS identifier `Windows_NT`. -/
theorem determine_platform_spec_witness :
    strContains (pyLower "Windows_NT") "windows" = true
    ∧ determine_platform "Windows_NT" = "windows" :=
  ⟨by decide, (determine_platform_spec "Windows_NT").1 (by decide)⟩

/-- C2: for every machine string whose lowercase form is `x86_64` or `amd64`
(resp. `arm64` or `aarch64`), `build_miniforge_filename` returns the
documented literal installer filename on each of the three platform tags; for
a machine string whose lowercase form is none of the four spellings it
returns the unsupported-architecture error on every platform, and
`install_miniforge` then fails with that same error and an empty effect
trace — in particular before any download attempt. -/
theorem build_miniforge_filename_spec (machine : String) :
    (pyLower machine = "x86_64" ∨ pyLower machine = "amd64" →
      build_miniforge_filename "windows" machine = Except.ok "Miniforge3-Windows-x86_64.exe"
      ∧ build_miniforge_filename "mac" machine = Except.ok "Miniforge3-MacOSX-x86_64.sh"
      ∧ build_miniforge_filename "linux" machine = Except.ok "Miniforge3-Linux-x86_64.sh")
    ∧ (pyLower machine = "arm64" ∨ pyLower machine = "aarch64" →
      build_miniforge_filename "windows" machine = Except.ok "Miniforge3-Windows-arm64.exe"
      ∧ build_miniforge_filename "mac" machine = Except.ok "Miniforge3-MacOSX-arm64.sh"
      ∧ build_miniforge_filename "linux" machine = Except.ok "Miniforge3-Linux-aarch64.sh")
    ∧ (pyLower machine ≠ "x86_64" → pyLower machine ≠ "amd64" →
       pyLower machine ≠ "arm64" → pyLower machine ≠ "aarch64" →
      ∀ p : String,
        build_miniforge_filename p machine = Except.error (unsupportedMsg machine p)
        ∧ ∀ (parentOf : String → String) (ret : List String → Int)
            (tmpdir runtime_dir : String) (dry_run : Bool),
            install_miniforge parentOf ret machine tmpdir runtime_dir p dry_run =
              ([], some (unsupportedMsg machine p))) := by
  refine ⟨?_, ?_, ?_⟩
  · rintro (h | h) <;>
      refine ⟨?_, ?_, ?_⟩ <;> simp [build_miniforge_filename, h]
  · rintro (h | h) <;>
      refine ⟨?_, ?_, ?_⟩ <;> simp [build_miniforge_filename, h]
  · intro h1 h2 h3 h4 p
    have hbuild : build_miniforge_filename p machine =
        Except.error (unsupportedMsg machine p) := by
      by_cases pw : p = "windows"
      · simp [build_miniforge_filename, pw, h1, h2, h3, h4]
      · by_cases pm : p = "mac"
        · simp [build_miniforge_filename, pw, pm, h1, h2, h3, h4]
        · simp [build_miniforge_filename, pw, pm, h1, h2, h3, h4]
    refine ⟨hbuild, ?_⟩
    intro parentOf ret tmpdir runtime_dir dry_run
    simp [install_miniforge, hbuild]

/-- C2 witness: the theorem applied at machine `ARM64` (supported, linux
filename) and at machine `riscv` (unsupported on `mac`, install fails with an
empty trace). -/
theorem build_miniforge_filename_spec_witness :
    build_miniforge_filename "linux" "ARM64" = Except.ok "Miniforge3-Linux-aarch64.sh"
    ∧ install_miniforge (fun _ => "t") (fun _ => 0) "riscv" "/tmp" "rt" "mac" true =
        ([], some (unsupportedMsg "riscv" "mac")) :=
  ⟨((build_miniforge_filename_spec "ARM64").2.1 (Or.inl (by decide))).2.2,
   (((build_miniforge_filename_spec "riscv").2.2 (by decide) (by decide) (by decide)
      (by decide) "mac").2 _ _ _ _ _)⟩

/-- C7: in non-dry-run mode `run_command` raises an error if and only if the
process return code is non-zero; the error message carries both the failing
exit code and the full command line; on zero exit it returns normally after
printing and executing the command. -/
theorem run_command_failure_spec (ret : List String → Int) (command : List String) :
    ((run_command ret command false).2 = none ↔ ret command = 0)
    ∧ (ret command ≠ 0 → (run_command ret command false).2 =
        some ("Command failed (" ++ toString (ret command) ++ "): " ++
          String.intercalate " " command))
    ∧ (ret command = 0 → run_command ret command false =
        ([Effect.print ("\n$ " ++ String.intercalate " " command),
          Effect.exec command], none)) := by
  by_cases h : ret command = 0
  · simp [run_command, h]
  · simp [run_command, h]

/-- C7 witness: the theorem applied to a process returning exit code 2. -/
theorem run_command_failure_spec_witness :
    (run_command (fun _ => (2 : Int)) ["ls", "-l"] false).2 =
      some ("Command failed (" ++ toString (2 : Int) ++ "): " ++
        String.intercalate " " ["ls", "-l"]) :=
  (run_command_failure_spec (fun _ => (2 : Int)) ["ls", "-l"]).2.1 (by decide)

/-- C4: with no explicit override, `detect_existing_python` probes the
running interpreter then `python3`, `python`, `py`, in that order, and
`ensure_python_runtime` returns its first match; only when the probe finds
nothing is the portable-runtime path consulted and reused if present; only
when that is also absent does the fresh install run, after which the runtime
interpreter path is returned. -/
theorem ensure_python_runtime_priority (resolve : String → String)
    (fsExists : String → Bool) (whichRes : String → Option String)
    (sysExec runtime_dir current_platform : String) (dry_run : Bool)
    (installOutcome : Option String) :
    (detect_existing_python fsExists whichRes sysExec none =
      probe_candidates fsExists whichRes [sysExec, "python3", "python", "py"])
    ∧ (∀ x, detect_existing_python fsExists whichRes sysExec none = some x →
        ensure_python_runtime resolve fsExists whichRes sysExec none runtime_dir
          current_platform dry_run installOutcome = Except.ok (x, false))
    ∧ (detect_existing_python fsExists whichRes sysExec none = none →
        fsExists (runtimePython runtime_dir current_platform) = true →
        ensure_python_runtime resolve fsExists whichRes sysExec none runtime_dir
          current_platform dry_run installOutcome =
          Except.ok (runtimePython runtime_dir current_platform, false))
    ∧ (detect_existing_python fsExists whichRes sysExec none = none →
        fsExists (runtimePython runtime_dir current_platform) = false →
        installOutcome = none →
        ensure_python_runtime resolve fsExists whichRes sysExec none runtime_dir
          current_platform dry_run installOutcome =
          Except.ok (runtimePython runtime_dir current_platform, true))
    ∧ (detect_existing_python fsExists whichRes sysExec none = none →
        fsExists (runtimePython runtime_dir current_platform) = false →
        ∀ e, installOutcome = some e →
          ensure_python_runtime resolve fsExists whichRes sysExec none runtime_dir
            current_platform dry_run installOutcome = Except.error e) := by
  refine ⟨rfl, ?_, ?_, ?_, ?_⟩
  · intro x hx
    simp [ensure_python_runtime, ensurePythonAuto, hx]
  · intro hd hfs
    simp [ensure_python_runtime, ensurePythonAuto, hd, hfs]
  · intro hd hfs hinst
    simp [ensure_python_runtime, ensurePythonAuto, hd, hfs, hinst]
  · intro hd hfs e hinst
    simp [ensure_python_runtime, ensurePythonAuto, hd, hfs, hinst]

/-- C4 witness: with nothing on disk and a PATH oracle resolving only
`python3`, the priority chain stops at `python3`'s resolution. -/
theorem ensure_python_runtime_priority_witness :
    ensure_python_runtime id (fun _ => false)
      (fun c => if c == "python3" then some "/usr/bin/python3" else none)
      "/opt/py" none "rt" "linux" false none = Except.ok ("/usr/bin/python3", false) :=
  (ensure_python_runtime_priority id (fun _ => false)
      (fun c => if c == "python3" then some "/usr/bin/python3" else none)
      "/opt/py" "rt" "linux" false none).2.1 "/usr/bin/python3" (by decide)

/-- C5: a supplied non-empty explicit interpreter path is resolved and
returned when it exists, is returned unconditionally in dry-run mode, and
otherwise resolution fails with a not-found error naming the resolved path;
in every explicit case the outcome never reports a fresh install and is
independent of the PATH-lookup oracle, the running-interpreter value and the
install outcome — no probing of other candidates and no installation. -/
theorem ensure_python_runtime_explicit_spec (resolve : String → String)
    (fsExists : String → Bool) (whichRes whichRes2 : String → Option String)
    (sysExec sysExec2 ep runtime_dir current_platform : String)
    (installOutcome installOutcome2 : Option String) (hep : ep ≠ "") :
    (fsExists (resolve ep) = true →
      ensure_python_runtime resolve fsExists whichRes sysExec (some ep)
        runtime_dir current_platform false installOutcome = Except.ok (resolve ep, false))
    ∧ (ensure_python_runtime resolve fsExists whichRes sysExec (some ep)
        runtime_dir current_platform true installOutcome = Except.ok (resolve ep, false))
    ∧ (fsExists (resolve ep) = false →
      ensure_python_runtime resolve fsExists whichRes sysExec (some ep)
        runtime_dir current_platform false installOutcome =
        Except.error ("Specified python interpreter not found: " ++ resolve ep))
    ∧ (∀ dry_run,
      ensure_python_runtime resolve fsExists whichRes sysExec (some ep)
        runtime_dir current_platform dry_run installOutcome =
      ensure_python_runtime resolve fsExists whichRes2 sysExec2 (some ep)
        runtime_dir current_platform dry_run installOutcome2) := by
  refine ⟨?_, ?_, ?_, ?_⟩
  · intro h
    simp [ensure_python_runtime, hep, h]
  · simp [ensure_python_runtime, hep]
  · intro h
    simp [ensure_python_runtime, hep, h]
  · intro dry_run
    simp [ensure_python_runtime, hep]

/-- C5 witness: the theorem applied at the missing explicit path
`/nonexistent` in a real (non-dry) run. -/
theorem ensure_python_runtime_explicit_spec_witness :
    ensure_python_runtime id (fun _ => false) (fun _ => none) "/opt/py"
      (some "/nonexistent") "rt" "linux" false none =
      Except.error ("Specified python interpreter not found: " ++ "/nonexistent") :=
  (ensure_python_runtime_explicit_spec id (fun _ => false) (fun _ => none)
    (fun _ => none) "/opt/py" "/opt/py" "/nonexistent" "rt" "linux" none none
    (by decide)).2.2.1 (by decide)

/-- C8 counterexample: against an existing `.venv` directory that does not
contain the expected interpreter, a real (non-dry) run of `ensure_venv`
invokes no creation command — its trace is one log line — and yet fails with
the cannot-locate error. -/
theorem ensure_venv_claim_false :
    (ensure_venv (fun _ => (0 : Int)) (fun s => s == ".venv") false ".venv" "python3" false).2 =
      Except.error "Cannot locate interpreter inside venv: .venv/bin/python"
    ∧ (ensure_venv (fun _ => (0 : Int)) (fun s => s == ".venv") false ".venv" "python3" false).1 =
        [Effect.print "Using existing virtual environment at .venv."] := by
  exact ⟨rfl, rfl⟩

/-- C8 (amended): when the target directory already exists, `ensure_venv`
performs no creation action — its effect trace is a single log line, with no
command execution — and it does not fail in dry-run mode, nor when the
expected in-environment interpreter path exists. -/
theorem ensure_venv_existing_dir (ret : List String → Int)
    (fsExists : String → Bool) (os_is_nt : Bool) (env_dir python_bin : String)
    (dry_run : Bool) (h : fsExists env_dir = true) :
    (ensure_venv ret fsExists os_is_nt env_dir python_bin dry_run).1 =
      [Effect.print ("Using existing virtual environment at " ++ env_dir ++ ".")]
    ∧ (dry_run = true →
        (ensure_venv ret fsExists os_is_nt env_dir python_bin dry_run).2 =
          Except.ok (envPython os_is_nt env_dir))
    ∧ (fsExists (envPython os_is_nt env_dir) = true →
        (ensure_venv ret fsExists os_is_nt env_dir python_bin dry_run).2 =
          Except.ok (envPython os_is_nt env_dir)) := by
  have h1 : ensure_venv ret fsExists os_is_nt env_dir python_bin dry_run =
      ensureVenvCheck fsExists os_is_nt env_dir dry_run
        [Effect.print ("Using existing virtual environment at " ++ env_dir ++ ".")] := by
    simp [ensure_venv, h]
  refine ⟨?_, ?_, ?_⟩
  · rw [h1]
    simp only [ensureVenvCheck]
    split <;> rfl
  · intro hd
    subst hd
    rw [h1]
    simp [ensureVenvCheck]
  · intro hfs
    rw [h1]
    simp [ensureVenvCheck, hfs]

/-- C8 witness: the amended theorem applied to an existing directory whose
interpreter path also exists. -/
theorem ensure_venv_existing_dir_witness :
    (ensure_venv (fun _ => (0 : Int)) (fun _ => true) false ".venv" "python3" false).1 =
      [Effect.print ("Using existing virtual environment at " ++ ".venv" ++ ".")]
    ∧ (ensure_venv (fun _ => (0 : Int)) (fun _ => true) false ".venv" "python3" false).2 =
        Except.ok (envPython false ".venv") :=
  ⟨(ensure_venv_existing_dir (fun _ => (0 : Int)) (fun _ => true) false ".venv" "python3"
      false (by decide)).1,
   (ensure_venv_existing_dir (fun _ => (0 : Int)) (fun _ => true) false ".venv" "python3"
      false (by decide)).2.2 (by decide)⟩

/-- C9: provided venv creation itself did not fail (the directory already
existed, or the creation command exited zero), `ensure_venv` in real mode
returns the platform-convention interpreter path (`Scripts/python.exe` on
Windows, `bin/python` otherwise) when it exists, and fails with the
cannot-locate error naming that path when it does not; in dry-run mode the
check is skipped and the path is returned. -/
theorem ensure_venv_postcondition (ret : List String → Int)
    (fsExists : String → Bool) (os_is_nt : Bool) (env_dir python_bin : String)
    (hcreate : fsExists env_dir = true ∨ ret [python_bin, "-m", "venv", env_dir] = 0) :
    (fsExists (envPython os_is_nt env_dir) = false →
      (ensure_venv ret fsExists os_is_nt env_dir python_bin false).2 =
        Except.error ("Cannot locate interpreter inside venv: " ++ envPython os_is_nt env_dir))
    ∧ (fsExists (envPython os_is_nt env_dir) = true →
      (ensure_venv ret fsExists os_is_nt env_dir python_bin false).2 =
        Except.ok (envPython os_is_nt env_dir))
    ∧ (∀ dry_run, dry_run = true →
      (ensure_venv ret fsExists os_is_nt env_dir python_bin dry_run).2 =
        Except.ok (envPython os_is_nt env_dir)) := by
  refine ⟨?_, ?_, ?_⟩
  · intro hpy
    by_cases hdir : fsExists env_dir = true
    · simp [ensure_venv, hdir, ensureVenvCheck, hpy]
    · have hret := hcreate.resolve_left hdir
      simp [ensure_venv, hdir, run_command, hret, ensureVenvCheck, hpy]
  · intro hpy
    by_cases hdir : fsExists env_dir = true
    · simp [ensure_venv, hdir, ensureVenvCheck, hpy]
    · have hret := hcreate.resolve_left hdir
      simp [ensure_venv, hdir, run_command, hret, ensureVenvCheck, hpy]
  · intro dry_run hd
    subst hd
    by_cases hdir : fsExists env_dir = true
    · simp [ensure_venv, hdir, ensureVenvCheck]
    · simp [ensure_venv, hdir, run_command, ensureVenvCheck]

/-- C9 witness: creation succeeds but the interpreter is missing, so the
builder fails with the cannot-locate error naming the conventional path. -/
theorem ensure_venv_postcondition_witness :
    (ensure_venv (fun _ => (0 : Int)) (fun _ => false) false ".venv" "python3" false).2 =
      Except.error ("Cannot locate interpreter inside venv: " ++ envPython false ".venv") :=
  (ensure_venv_postcondition (fun _ => (0 : Int)) (fun _ => false) false ".venv" "python3"
    (Or.inr rfl)).1 (by decide)

/-- C6 counterexample: a dry run of the installer stage on a supported
architecture still creates the scoped temporary directory (the
`tempfile.TemporaryDirectory` block is entered before the dry-run check), so
its effect trace contains a mutating directory-creation effect — refuting the
claim that in simulation mode no directory creation occurs in any stage. -/
theorem dry_run_claim_false :
    Effect.mkdir "/tmp/python-bootstrap-abc" ∈
      (install_miniforge (fun _ => "t") (fun _ => (0 : Int)) "x86_64"
        "/tmp/python-bootstrap-abc" "rt" "linux" true).1
    ∧ (Effect.mkdir "/tmp/python-bootstrap-abc").isMutating = true := by
  decide

/-- C6 (amended): in dry-run mode every modelled pipeline stage performs no
network request, no subprocess execution and no chmod; no directory creation
occurs either, except that the installer stage still creates its scoped
temporary download directory (the only mutating effect it may emit); every
stage completes without raising an error (the installer stage provided the
architecture is supported, a check performed before and independently of the
download); the planned command line is still printed. -/
theorem dry_run_frame (parentOf : String → String) (ret : List String → Int)
    (fsExists : String → Bool) (os_is_nt : Bool) (command packages : List String)
    (url destination machine tmpdir runtime_dir current_platform : String)
    (env_dir python_bin env_python : String) :
    ((run_command ret command true).1.all (fun e => !e.isMutating) = true
      ∧ (run_command ret command true).2 = none
      ∧ Effect.print ("\n$ " ++ String.intercalate " " command) ∈
          (run_command ret command true).1)
    ∧ ((download_file parentOf url destination true).all (fun e => !e.isMutating) = true)
    ∧ ((∀ e ∈ (install_miniforge parentOf ret machine tmpdir runtime_dir
            current_platform true).1,
          e.isMutating = true → e = Effect.mkdir tmpdir)
      ∧ (∀ f, build_miniforge_filename current_platform machine = Except.ok f →
          (install_miniforge parentOf ret machine tmpdir runtime_dir current_platform true).2 =
            none))
    ∧ ((ensure_venv ret fsExists os_is_nt env_dir python_bin true).1.all
          (fun e => !e.isMutating) = true
      ∧ (ensure_venv ret fsExists os_is_nt env_dir python_bin true).2 =
          Except.ok (envPython os_is_nt env_dir))
    ∧ ((upgrade_tooling ret env_python true).1.all (fun e => !e.isMutating) = true
      ∧ (upgrade_tooling ret env_python true).2 = none)
    ∧ ((install_packages ret env_python packages true).1.all (fun e => !e.isMutating) = true
      ∧ (install_packages ret env_python packages true).2 = none) := by
  refine ⟨⟨?_, ?_, ?_⟩, ?_, ⟨?_, ?_⟩, ⟨?_, ?_⟩, ⟨?_, ?_⟩, ⟨?_, ?_⟩⟩
  · simp [run_command, Effect.isMutating]
  · simp [run_command]
  · simp [run_command]
  · simp [download_file, Effect.isMutating]
  · cases hb : build_miniforge_filename current_platform machine with
    | error e => simp [install_miniforge, hb]
    | ok f =>
      intro e he hm
      simp [install_miniforge, hb, download_file] at he
      rcases he with rfl | rfl
      · rfl
      · simp [Effect.isMutating] at hm
  · intro f hf
    simp [install_miniforge, hf]
  · by_cases hdir : fsExists env_dir = true
    · simp [ensure_venv, hdir, ensureVenvCheck, Effect.isMutating]
    · simp [ensure_venv, hdir, run_command, ensureVenvCheck, Effect.isMutating]
  · by_cases hdir : fsExists env_dir = true
    · simp [ensure_venv, hdir, ensureVenvCheck]
    · simp [ensure_venv, hdir, run_command, ensureVenvCheck]
  · simp [upgrade_tooling, run_command, Effect.isMutating]
  · simp [upgrade_tooling, run_command]
  · by_cases hp : packages.isEmpty <;>
      simp [install_packages, hp, run_command, Effect.isMutating]
  · by_cases hp : packages.isEmpty <;>
      simp [install_packages, hp, run_command]

/-- C6 witness: the installer-stage conjunct applied on linux/x86_64, whose
dry run completes without error. -/
theorem dry_run_frame_witness :
    (install_miniforge (fun _ => "t") (fun _ => (0 : Int)) "x86_64" "/tmp" "rt" "linux"
      true).2 = none :=
  ((dry_run_frame (fun _ => "t") (fun _ => (0 : Int)) (fun _ => false) false [] []
      "" "" "x86_64" "/tmp" "rt" "linux" ".venv" "python3" "envpy").2.2.1.2)
    "Miniforge3-Linux-x86_64.sh" (by rfl)
